import Mathlib

/-!
Shallow embedding of the offline-first inventory cache engine
(`src/lib/stores/inventoryCache.js`) of the fridge_inventory repository.

The engine is single-threaded JavaScript; every operation modelled here is a
straight-line async function whose only effects are reads/writes of the one
svelte-store `CacheState`, reads/writes of two fixed `localStorage` keys, and
remote calls through `odooClient`.  We model the remote and storage world as an
explicit environment record (`SyncEnv`, `StorageEnv`): each remote call's
outcome is an `Except String _` value (a thrown JS error carrying `message`),
and `localStorage` contents are explicit values.  State updates become pure
functions from state to state.
-/

namespace FridgeInventory

/-- Record of the remote `x_inventory` collection as used by the cache: the
numeric identity and the one configured field `x_name` (the source's `fields`
list at lines 172-176 is `['id', 'x_name']`). -/
structure InventoryRecord where
  id : Nat
  x_name : String
deriving DecidableEq, Repr

/-- Cache metadata, mirroring the `CacheMeta` typedef of the source. -/
structure CacheMeta where
  lastSyncTime : Nat
  lastRecordId : Nat
  recordCount : Nat
  isStale : Bool
deriving DecidableEq, Repr

/-- Observable cache state, mirroring the `CacheState` typedef of the source. -/
structure CacheState where
  records : List InventoryRecord
  loading : Bool
  syncing : Bool
  error : String
  meta : CacheMeta
deriving DecidableEq, Repr

/-- `CACHE_DURATION_MS = 5 * 60 * 1000` (5 minutes cache validity). -/
def CACHE_DURATION_MS : Nat := 5 * 60 * 1000

/-- Result of `loadFromStorage`: the records and metadata read from the durable
mirror (or the defaults). -/
structure LoadResult where
  records : List InventoryRecord
  meta : CacheMeta
deriving DecidableEq, Repr

/-- The default returned by `loadFromStorage` when the mirror is absent or
corrupt (source lines 58-66). -/
def defaultLoadResult : LoadResult :=
  { records := []
    meta := { lastSyncTime := 0, lastRecordId := 0, recordCount := 0, isStale := true } }

/-- Environment of `loadFromStorage`: the raw strings under the two
`localStorage` keys (`none` = key absent, i.e. `getItem` returned `null`) and
the outcome of `JSON.parse` on any string (`none` = the parse throws).  The
parse functions are environment parameters because JSON decoding itself is
outside the modelled core. -/
structure StorageEnv where
  cachedData : Option String
  metaData : Option String
  parseRecords : String → Option (List InventoryRecord)
  parseMeta : String → Option CacheMeta

/-- JS truthiness of a `getItem` result: `null` and the empty string are falsy,
any other string is truthy (source line 41 `if (cachedData && meta)`). -/
def truthyStr : Option String → Bool
  | none => false
  | some s => s ≠ ""

/-- Shallow embedding of `loadFromStorage` (source lines 36-67): read both
keys; if both are truthy, parse both (a parse failure is the thrown exception
caught at line 54) and recompute the staleness flag from `now`; in every other
case return the defaults. -/
def loadFromStorage (env : StorageEnv) (now : Nat) : LoadResult :=
  match env.cachedData, env.metaData with
  | some cd, some ms =>
    if truthyStr (some cd) && truthyStr (some ms) then
      match env.parseRecords cd, env.parseMeta ms with
      | some records, some metaData =>
        let isStale := now - metaData.lastSyncTime > CACHE_DURATION_MS
        { records := records, meta := { metaData with isStale := isStale } }
      | _, _ => defaultLoadResult
    else defaultLoadResult
  | _, _ => defaultLoadResult

/-- Contents of the durable mirror after a successful `saveToStorage`. -/
structure StoredMirror where
  recordsStored : List InventoryRecord
  metaStored : CacheMeta
deriving DecidableEq, Repr

/-- Shallow embedding of `saveToStorage` (source lines 69-81).  The metadata
written applies the JS `||` defaults (`meta.lastSyncTime || Date.now()`,
`meta.lastRecordId || 0`; on `Nat` the latter is the identity) and always
stores `recordCount = records.length`, `isStale = false`.  A `setItem` failure
is caught inside the function and only logged (line 78-80): the caller never
sees it, so a failed save leaves the mirror argument unchanged and returns
normally. -/
def saveToStorage (saveOk : Bool) (storage : Option StoredMirror)
    (records : List InventoryRecord) (meta : CacheMeta) (now : Nat) :
    Option StoredMirror :=
  if saveOk then
    some { recordsStored := records
           metaStored :=
             { lastSyncTime := if meta.lastSyncTime = 0 then now else meta.lastSyncTime
               lastRecordId := meta.lastRecordId
               recordCount := records.length
               isStale := false } }
  else storage

/-- Shallow embedding of `resolvePartnerNames` (source lines 110-164).  With
the shipped configuration every partner-field block is commented out, so
`partnerIds` stays empty, no remote lookup happens, and the function returns a
shallow copy of each record — extensionally the identity map. -/
def resolvePartnerNames (records : List InventoryRecord) : List InventoryRecord :=
  records.map (fun r => { id := r.id, x_name := r.x_name })

/-- Comparison used by `mergedRecords.sort((a, b) => a.id - b.id)`:
ascending numeric identity. -/
def recIdLE (a b : InventoryRecord) : Prop := a.id ≤ b.id

instance : DecidableRel recIdLE := fun a b => inferInstanceAs (Decidable (a.id ≤ b.id))

instance : IsTotal InventoryRecord recIdLE := ⟨fun a b => Nat.le_total a.id b.id⟩

instance : IsTrans InventoryRecord recIdLE := ⟨fun _ _ _ => Nat.le_trans⟩

/-- Shallow embedding of `mergedRecords.sort((a, b) => a.id - b.id)` (source
line 214).  `Array.prototype.sort` is a stable sort under this comparator; we
use the stable insertion sort with the same ordering. -/
def sortByIdAsc (l : List InventoryRecord) : List InventoryRecord :=
  List.insertionSort recIdLE l

/-- Shallow embedding of the watermark computation (source lines 220-222):
`Math.max(...records.map(r => r.id))` when nonempty, `0` otherwise; on `Nat`
this is a `max`-fold with base `0`. -/
def lastIdOf (l : List InventoryRecord) : Nat :=
  (l.map (fun r => r.id)).foldr max 0

/-- Error message published by the catch block (source line 248):
`error.message || 'Failed to sync data'`. -/
def errMsg (e : String) : String :=
  if e = "" then "Failed to sync data" else e

/-- Environment of one `sync` invocation: the outcome of the incremental
remote fetch (`searchRecords('x_inventory', [['id', '>', watermark]], fields)`),
the outcome of the full remote fetch (`searchRecords('x_inventory', [], fields)`),
whether the `localStorage` writes succeed, and the value of `Date.now()` at the
metadata computation. -/
structure SyncEnv where
  incrResult : Except String (List InventoryRecord)
  fullResult : Except String (List InventoryRecord)
  saveOk : Bool
  now : Nat

/-- Shallow embedding of `sync(forceFullRefresh)` (source lines 167-251),
returning the published state and the durable mirror afterwards.

Control flow mirrored from the source: set `syncing = true` and clear the
error; if not forced and the watermark is positive, attempt the incremental
fetch, and on its failure set `forceFullRefresh = true` (inner catch, lines
188-193); if forced (originally or by fallback) or the watermark is zero, the
full fetch's outcome is used, and its failure reaches the outer catch (lines
243-250) which publishes `syncing = false` and the error message, leaving
records and metadata untouched.  A successful fetch is merged (replacement in
full mode, identity set-difference then append in incremental mode, lines
201-211), sorted by ascending id, passed through the partner resolver, and
published together with fresh metadata after the storage write. -/
def sync (env : SyncEnv) (forceFullRefresh : Bool) (st0 : CacheState)
    (storage : Option StoredMirror) : CacheState × Option StoredMirror :=
  let st := { st0 with syncing := true, error := "" }
  let wm := st.meta.lastRecordId
  let force :=
    if !forceFullRefresh && wm > 0 then
      match env.incrResult with
      | Except.ok _ => forceFullRefresh
      | Except.error _ => true
    else forceFullRefresh
  let fetched : Except String (List InventoryRecord) :=
    if force || wm = 0 then env.fullResult
    else env.incrResult
  match fetched with
  | Except.error e =>
    ({ st with syncing := false, error := errMsg e }, storage)
  | Except.ok fetchedRecords =>
    let mergedRecords :=
      if force || wm = 0 then fetchedRecords
      else
        let existingIds := st.records.map (fun r => r.id)
        let newRecords := fetchedRecords.filter (fun r => !(existingIds.contains r.id))
        st.records ++ newRecords
    let recordsWithNames := resolvePartnerNames (sortByIdAsc mergedRecords)
    let newMeta : CacheMeta :=
      { lastSyncTime := env.now
        lastRecordId := lastIdOf recordsWithNames
        recordCount := recordsWithNames.length
        isStale := false }
    let storage2 := saveToStorage env.saveOk storage recordsWithNames newMeta env.now
    ({ st with records := recordsWithNames, meta := newMeta, syncing := false, error := "" },
     storage2)

/-- Initial state built by `createCacheStore` (source lines 93-104): the
durable mirror is loaded and published with all flags clear. -/
def createCacheStoreState (env : StorageEnv) (now : Nat) : CacheState :=
  let initialCache := loadFromStorage env now
  { records := initialCache.records
    loading := false
    syncing := false
    error := ""
    meta := initialCache.meta }

/-- Field map passed to `createRecord`; the modelled collection's writable
schema is the single field `x_name`. -/
structure CreateFields where
  x_name : String
deriving DecidableEq, Repr

/-- Spread `{ id, ...fields }` (source line 310). -/
def recordOfFields (id : Nat) (fields : CreateFields) : InventoryRecord :=
  { id := id, x_name := fields.x_name }

/-- Optimistic publish step of `createRecord` (source lines 310-314): append
the new record to the published set. -/
def createOptimistic (id : Nat) (fields : CreateFields) (st : CacheState) : CacheState :=
  { st with records := st.records ++ [recordOfFields id fields] }

/-- Shallow embedding of `createRecord(fields)` (source lines 305-324): await
the remote create; on failure rethrow with no state change (the catch at lines
320-323 logs and rethrows before any `update` call ran); on success publish
the optimistic append, run the reconciling `sync()`, and return the
remote-assigned id. -/
def createRecord (env : SyncEnv) (remoteCreate : Except String Nat)
    (fields : CreateFields) (st : CacheState) (storage : Option StoredMirror) :
    Except String Nat × CacheState × Option StoredMirror :=
  match remoteCreate with
  | Except.error e => (Except.error e, st, storage)
  | Except.ok id =>
    let published := createOptimistic id fields st
    let after := sync env false published storage
    (Except.ok id, after.1, after.2)

/-- Partial field map passed to `updateRecord`; a `some` entry models a key
present in `values`. -/
structure UpdateValues where
  x_name : Option String
deriving DecidableEq, Repr

/-- Shallow merge `{ ...r, ...values }` (source line 334): keys present in
`values` override the record's. -/
def shallowMerge (r : InventoryRecord) (values : UpdateValues) : InventoryRecord :=
  { r with x_name := values.x_name.getD r.x_name }

/-- Patch step of `updateRecord` (source lines 332-335): shallow-merge the
values into every record whose id matches. -/
def updateOptimistic (id : Nat) (values : UpdateValues) (st : CacheState) : CacheState :=
  { st with
    records := st.records.map (fun r => if r.id = id then shallowMerge r values else r) }

/-- Shallow embedding of `updateRecord(id, values)` (source lines 327-345):
the remote update is awaited first (line 329); only after it resolves
successfully is the patch applied to the published set and the reconciling
`sync()` run.  A remote failure rethrows with no state change. -/
def updateRecord (env : SyncEnv) (remoteUpdate : Except String Bool) (id : Nat)
    (values : UpdateValues) (st : CacheState) (storage : Option StoredMirror) :
    Except String Bool × CacheState × Option StoredMirror :=
  match remoteUpdate with
  | Except.error e => (Except.error e, st, storage)
  | Except.ok _ =>
    let published := updateOptimistic id values st
    let after := sync env false published storage
    (Except.ok true, after.1, after.2)

/-- Shallow embedding of `deleteRecord(id)` (source lines 348-363): the remote
delete is awaited first; only on success is the record filtered out of the
published set (no reconciling sync follows).  A remote failure rethrows with
no state change. -/
def deleteRecord (remoteDelete : Except String Bool) (id : Nat) (st : CacheState)
    (storage : Option StoredMirror) :
    Except String Bool × CacheState × Option StoredMirror :=
  match remoteDelete with
  | Except.error e => (Except.error e, st, storage)
  | Except.ok _ =>
    (Except.ok true, { st with records := st.records.filter (fun r => r.id != id) }, storage)

/-! ### Concrete example data used to exercise the definitions -/

/-- Metadata of a cache that has already synced up to identity 2. -/
def exMeta : CacheMeta :=
  { lastSyncTime := 100, lastRecordId := 2, recordCount := 2, isStale := false }

/-- Cache state holding the records with identities 1 and 2. -/
def exState : CacheState :=
  { records := [{ id := 1, x_name := "a" }, { id := 2, x_name := "b" }]
    loading := false
    syncing := false
    error := ""
    meta := exMeta }

/-- Example parse function for the serialized record array: recognises two
fixed serialized forms, anything else throws. -/
def exParseRecords : String → Option (List InventoryRecord) :=
  fun s =>
    if s = "RECS" then some [{ id := 1, x_name := "a" }, { id := 2, x_name := "b" }]
    else none

/-- Example parse function for the serialized metadata, parameterised by the
stored `lastSyncTime`. -/
def exParseMeta (t : Nat) : String → Option CacheMeta :=
  fun s =>
    if s = "META" then
      some { lastSyncTime := t, lastRecordId := 2, recordCount := 2, isStale := false }
    else none

/-- Storage environment whose mirror parses to `exState`-like contents with
the given stored `lastSyncTime`. -/
def exStorageEnv (t : Nat) : StorageEnv :=
  { cachedData := some "RECS"
    metaData := some "META"
    parseRecords := exParseRecords
    parseMeta := exParseMeta t }

/-- Storage environment whose record key is missing entirely. -/
def exStorageEnvMissing : StorageEnv :=
  { cachedData := none
    metaData := some "META"
    parseRecords := exParseRecords
    parseMeta := exParseMeta 0 }

/-- Fetched records with identities 3, 7 and 9. -/
def exFetched : List InventoryRecord :=
  [{ id := 3, x_name := "c" }, { id := 7, x_name := "d" }, { id := 9, x_name := "e" }]

/-- Sync environment whose incremental fetch returns `exFetched`. -/
def exEnvMerge : SyncEnv :=
  { incrResult := Except.ok exFetched
    fullResult := Except.ok []
    saveOk := true
    now := 500 }

/-- Sync environment whose incremental fetch fails and whose full fetch
returns the single record with identity 5. -/
def exEnvFallback : SyncEnv :=
  { incrResult := Except.error "boom"
    fullResult := Except.ok [{ id := 5, x_name := "z" }]
    saveOk := true
    now := 600 }

/-- Sync environment whose fetches succeed but whose `localStorage` writes
fail. -/
def exEnvSaveFail : SyncEnv :=
  { incrResult := Except.error "x"
    fullResult := Except.ok [{ id := 3, x_name := "Milk" }]
    saveOk := false
    now := 800 }

/-- Sync environment in which the remote reports no records beyond the
watermark. -/
def exEnvEmpty : SyncEnv :=
  { incrResult := Except.ok []
    fullResult := Except.error "unused"
    saveOk := true
    now := 1000 }

/-- Sync environment for exercising the mutation operations; its fetches
return nothing new. -/
def exEnvIdle : SyncEnv :=
  { incrResult := Except.ok []
    fullResult := Except.ok []
    saveOk := true
    now := 900 }

/-- Cache state holding the single record with identity 1 named Milk. -/
def exStateMilk : CacheState :=
  { records := [{ id := 1, x_name := "Milk" }]
    loading := false
    syncing := false
    error := ""
    meta := { lastSyncTime := 50, lastRecordId := 1, recordCount := 1, isStale := false } }

/-! ### Helper lemmas about the sorting and resolution steps -/

theorem resolvePartnerNames_eq (l : List InventoryRecord) : resolvePartnerNames l = l :=
  List.map_id l

theorem sortByIdAsc_sorted (l : List InventoryRecord) :
    List.Sorted recIdLE (sortByIdAsc l) :=
  List.sorted_insertionSort recIdLE l

theorem sortByIdAsc_perm (l : List InventoryRecord) : List.Perm (sortByIdAsc l) l :=
  List.perm_insertionSort recIdLE l

theorem sortByIdAsc_of_sorted {l : List InventoryRecord}
    (h : List.Sorted recIdLE l) : sortByIdAsc l = l :=
  h.insertionSort_eq

theorem lastIdOf_sortByIdAsc (l : List InventoryRecord) :
    lastIdOf (sortByIdAsc l) = lastIdOf l :=
  List.Perm.foldr_op_eq ((sortByIdAsc_perm l).map (fun r => r.id))

theorem sortByIdAsc_strict {l : List InventoryRecord}
    (h : (l.map (fun r => r.id)).Nodup) :
    List.Pairwise (fun a b => a.id < b.id) (sortByIdAsc l) := by
  have hs : List.Pairwise recIdLE (sortByIdAsc l) := sortByIdAsc_sorted l
  have hperm := sortByIdAsc_perm l
  have hnd : ((sortByIdAsc l).map (fun r => r.id)).Nodup :=
    ((hperm.map (fun r => r.id)).nodup_iff).mpr h
  have hne : List.Pairwise (fun a b => a.id ≠ b.id) (sortByIdAsc l) :=
    List.pairwise_map.mp hnd
  exact (hs.and hne).imp (fun hab => lt_of_le_of_ne hab.1 hab.2)

theorem mergedIdsNodup {recs fetched : List InventoryRecord}
    (h1 : (recs.map (fun r => r.id)).Nodup) (h2 : (fetched.map (fun r => r.id)).Nodup) :
    ((recs ++ fetched.filter (fun r => !((recs.map (fun r => r.id)).contains r.id))).map
      (fun r => r.id)).Nodup := by
  rw [List.map_append, List.nodup_append]
  refine ⟨h1, h2.sublist (List.Sublist.map _ (List.filter_sublist _)), ?_⟩
  intro a ha hb
  rcases List.mem_map.mp hb with ⟨r, hrmem, hrid⟩
  have hpred := List.of_mem_filter hrmem
  have hmem : r.id ∈ recs.map (fun r => r.id) := hrid ▸ ha
  rw [show ((recs.map (fun r => r.id)).contains r.id) = true from List.elem_iff.mpr hmem]
    at hpred
  simp at hpred

/-! ### Characterizations of the three outcomes of `sync` -/

theorem sync_incr_ok (env : SyncEnv) (st : CacheState) (storage : Option StoredMirror)
    (fetched : List InventoryRecord)
    (hincr : env.incrResult = Except.ok fetched) (hwm : 0 < st.meta.lastRecordId) :
    sync env false st storage =
      ({ records := sortByIdAsc (st.records ++
            fetched.filter (fun r => !((st.records.map (fun r => r.id)).contains r.id)))
         loading := st.loading
         syncing := false
         error := ""
         meta :=
           { lastSyncTime := env.now
             lastRecordId := lastIdOf (sortByIdAsc (st.records ++
               fetched.filter (fun r => !((st.records.map (fun r => r.id)).contains r.id))))
             recordCount := (sortByIdAsc (st.records ++
               fetched.filter (fun r => !((st.records.map (fun r => r.id)).contains r.id)))).length
             isStale := false } },
       saveToStorage env.saveOk storage
         (sortByIdAsc (st.records ++
           fetched.filter (fun r => !((st.records.map (fun r => r.id)).contains r.id))))
         { lastSyncTime := env.now
           lastRecordId := lastIdOf (sortByIdAsc (st.records ++
             fetched.filter (fun r => !((st.records.map (fun r => r.id)).contains r.id))))
           recordCount := (sortByIdAsc (st.records ++
             fetched.filter (fun r => !((st.records.map (fun r => r.id)).contains r.id)))).length
           isStale := false }
         env.now) := by
  have hne : ¬ st.meta.lastRecordId = 0 := Nat.pos_iff_ne_zero.mp hwm
  simp [sync, hincr, hwm, hne, resolvePartnerNames_eq]

theorem sync_full_ok (env : SyncEnv) (st : CacheState) (storage : Option StoredMirror)
    (fetched : List InventoryRecord) (hfull : env.fullResult = Except.ok fetched) :
    sync env true st storage =
      ({ records := sortByIdAsc fetched
         loading := st.loading
         syncing := false
         error := ""
         meta :=
           { lastSyncTime := env.now
             lastRecordId := lastIdOf (sortByIdAsc fetched)
             recordCount := (sortByIdAsc fetched).length
             isStale := false } },
       saveToStorage env.saveOk storage (sortByIdAsc fetched)
         { lastSyncTime := env.now
           lastRecordId := lastIdOf (sortByIdAsc fetched)
           recordCount := (sortByIdAsc fetched).length
           isStale := false }
         env.now) := by
  simp [sync, hfull, resolvePartnerNames_eq]

theorem sync_full_err (env : SyncEnv) (st : CacheState) (storage : Option StoredMirror)
    (e : String) (hfull : env.fullResult = Except.error e) :
    sync env true st storage =
      ({ st with syncing := false, error := errMsg e }, storage) := by
  simp [sync, hfull]

/-! ### Claim theorems -/

/-- Claim C1: when the incremental fetch of a `sync(false)` invocation raises
an error, the invocation falls back to the full unfiltered fetch within the
same invocation: it terminates with `syncing = false` and its entire outcome
(published state and durable mirror) is the one a forced full sync
`sync(true)` from the same state produces. -/
theorem sync_incremental_fallback (env : SyncEnv) (st : CacheState)
    (storage : Option StoredMirror) (e : String)
    (h : env.incrResult = Except.error e) :
    sync env false st storage = sync env true st storage ∧
      (sync env false st storage).1.syncing = false := by
  have hmain : sync env false st storage = sync env true st storage := by
    by_cases hwm : st.meta.lastRecordId = 0
    · simp [sync, h, hwm]
    · have hpos : 0 < st.meta.lastRecordId := Nat.pos_of_ne_zero hwm
      simp [sync, h, hwm, hpos]
  refine ⟨hmain, ?_⟩
  rw [hmain]
  rcases hf : env.fullResult with e2 | l
  · rw [sync_full_err env st storage e2 hf]
  · rw [sync_full_ok env st storage l hf]

/-- Witness for C1: with existing records `{1, 2}`, a failing incremental
fetch and a full fetch returning the single record 5, `sync(false)` publishes
exactly what `sync(true)` publishes and ends with `syncing = false`. -/
theorem sync_incremental_fallback_witness :
    sync exEnvFallback false exState none = sync exEnvFallback true exState none ∧
      (sync exEnvFallback false exState none).1.syncing = false :=
  sync_incremental_fallback exEnvFallback exState none "boom" rfl

/-- Claim C2: a successful incremental `sync` publishes the existing set plus
exactly the fetched records whose identity is not already present, sorted
ascending by numeric identity, with metadata `lastRecordId` the maximum
identity of the merged set (0 if empty), `recordCount` its size, `isStale`
false and `lastSyncTime` the current time. -/
theorem sync_incremental_merge (env : SyncEnv) (st : CacheState)
    (storage : Option StoredMirror) (fetched : List InventoryRecord)
    (hincr : env.incrResult = Except.ok fetched) (hwm : 0 < st.meta.lastRecordId) :
    (sync env false st storage).1.records =
        sortByIdAsc (st.records ++
          fetched.filter (fun r => !((st.records.map (fun r => r.id)).contains r.id))) ∧
      List.Sorted recIdLE (sync env false st storage).1.records ∧
      (sync env false st storage).1.meta.lastRecordId =
        lastIdOf (st.records ++
          fetched.filter (fun r => !((st.records.map (fun r => r.id)).contains r.id))) ∧
      (sync env false st storage).1.meta.recordCount =
        (st.records ++
          fetched.filter (fun r => !((st.records.map (fun r => r.id)).contains r.id))).length ∧
      (sync env false st storage).1.meta.isStale = false ∧
      (sync env false st storage).1.meta.lastSyncTime = env.now ∧
      (sync env false st storage).1.syncing = false := by
  rw [sync_incr_ok env st storage fetched hincr hwm]
  refine ⟨rfl, sortByIdAsc_sorted _, lastIdOf_sortByIdAsc _, (sortByIdAsc_perm _).length_eq,
    rfl, rfl, rfl⟩

/-- Witness for C2: merging fetched identities `{3, 7, 9}` into the existing
set `{1, 2}` publishes exactly `[1, 2, 3, 7, 9]` with `lastRecordId = 9`. -/
theorem sync_incremental_merge_witness :
    (0 : Nat) < exState.meta.lastRecordId ∧
      List.Sorted recIdLE (sync exEnvMerge false exState none).1.records ∧
      ((sync exEnvMerge false exState none).1.records.map (fun r => r.id)) = [1, 2, 3, 7, 9] ∧
      (sync exEnvMerge false exState none).1.meta.lastRecordId = 9 :=
  ⟨by decide,
   (sync_incremental_merge exEnvMerge exState none exFetched rfl (by decide)).2.1,
   by decide, by decide⟩

/-- Claim C9: the staleness flag computed by `loadFromStorage` on a readable
mirror is true exactly when `now - lastSyncTime` strictly exceeds the fixed
5-minute window `CACHE_DURATION_MS`; in particular it is true for a last sync
6 minutes ago and false for one 4 minutes ago. -/
theorem loadFromStorage_staleness (env : StorageEnv) (now : Nat) (cd ms : String)
    (records : List InventoryRecord) (metaData : CacheMeta)
    (hcd : env.cachedData = some cd) (hms : env.metaData = some ms)
    (hcd0 : cd ≠ "") (hms0 : ms ≠ "")
    (hpr : env.parseRecords cd = some records) (hpm : env.parseMeta ms = some metaData) :
    ((loadFromStorage env now).meta.isStale = true ↔
        now - metaData.lastSyncTime > CACHE_DURATION_MS) ∧
      (metaData.lastSyncTime = now - 6 * 60 * 1000 → 6 * 60 * 1000 ≤ now →
        (loadFromStorage env now).meta.isStale = true) ∧
      (metaData.lastSyncTime = now - 4 * 60 * 1000 →
        (loadFromStorage env now).meta.isStale = false) := by
  have hload : (loadFromStorage env now).meta.isStale =
      decide (now - metaData.lastSyncTime > CACHE_DURATION_MS) := by
    simp [loadFromStorage, hcd, hms, truthyStr, hcd0, hms0, hpr, hpm]
  refine ⟨?_, ?_, ?_⟩
  · rw [hload]; simp
  · intro ht hnow
    rw [hload, ht, decide_eq_true_eq]
    have : now - (now - 6 * 60 * 1000) = 6 * 60 * 1000 := by omega
    rw [this]; norm_num [CACHE_DURATION_MS]
  · intro ht
    rw [hload, ht, decide_eq_false_iff_not]
    have : now - (now - 4 * 60 * 1000) ≤ 4 * 60 * 1000 := by omega
    simp only [CACHE_DURATION_MS]
    omega

/-- Witness for C9: at `now` = 600000 ms, a mirror whose stored `lastSyncTime`
is 6 minutes old is loaded stale, and one 4 minutes old is loaded fresh. -/
theorem loadFromStorage_staleness_witness :
    (loadFromStorage (exStorageEnv (600000 - 6 * 60 * 1000)) 600000).meta.isStale = true ∧
      (loadFromStorage (exStorageEnv (600000 - 4 * 60 * 1000)) 600000).meta.isStale = false :=
  ⟨(loadFromStorage_staleness (exStorageEnv (600000 - 6 * 60 * 1000)) 600000 "RECS" "META"
      _ _ rfl rfl (by decide) (by decide) rfl rfl).2.1 (by decide) (by decide),
   (loadFromStorage_staleness (exStorageEnv (600000 - 4 * 60 * 1000)) 600000 "RECS" "META"
      _ _ rfl rfl (by decide) (by decide) rfl rfl).2.2 (by decide)⟩

/-- Claim C10: whenever the serialized record array or the serialized metadata
is absent from durable storage, or deserializing either of them throws,
`loadFromStorage` returns the well-formed default (empty records; metadata
all-zero with `isStale = true`), and the initial state `createCacheStore`
builds from it is the corresponding total default state. -/
theorem loadFromStorage_default_total (env : StorageEnv) (now : Nat)
    (h : env.cachedData = none ∨ env.metaData = none ∨
      (∃ cd, env.cachedData = some cd ∧ env.parseRecords cd = none) ∨
      (∃ ms, env.metaData = some ms ∧ env.parseMeta ms = none)) :
    loadFromStorage env now = defaultLoadResult ∧
      createCacheStoreState env now =
        { records := []
          loading := false
          syncing := false
          error := ""
          meta := { lastSyncTime := 0, lastRecordId := 0, recordCount := 0, isStale := true } } := by
  have hdef : loadFromStorage env now = defaultLoadResult := by
    rcases h with h | h | ⟨cd, hcd, hp⟩ | ⟨ms, hms, hp⟩
    · cases hm : env.metaData <;> simp [loadFromStorage, h, hm]
    · cases hc : env.cachedData <;> simp [loadFromStorage, h, hc]
    · cases hm : env.metaData with
      | none => simp [loadFromStorage, hcd, hm]
      | some ms =>
        by_cases hcd0 : cd = ""
        · simp [loadFromStorage, hcd, hm, truthyStr, hcd0]
        · cases hpm : env.parseMeta ms <;>
            simp [loadFromStorage, hcd, hm, truthyStr, hcd0, hp, hpm]
    · cases hc : env.cachedData with
      | none => simp [loadFromStorage, hc]
      | some cd =>
        by_cases hms0 : ms = ""
        · simp [loadFromStorage, hc, hms, truthyStr, hms0]
        · cases hpr : env.parseRecords cd <;>
            simp [loadFromStorage, hc, hms, truthyStr, hms0, hp, hpr]
  refine ⟨hdef, ?_⟩
  simp [createCacheStoreState, hdef, defaultLoadResult]

/-- Witness for C10: a mirror whose record key is absent loads as the default
state. -/
theorem loadFromStorage_default_total_witness :
    loadFromStorage exStorageEnvMissing 600000 = defaultLoadResult ∧
      createCacheStoreState exStorageEnvMissing 600000 =
        { records := []
          loading := false
          syncing := false
          error := ""
          meta := { lastSyncTime := 0, lastRecordId := 0, recordCount := 0, isStale := true } } :=
  loadFromStorage_default_total exStorageEnvMissing 600000 (Or.inl rfl)

/-- Claim C3 counterexample: a sync whose fetch succeeds but whose persistence
write to durable storage fails still wholly replaces the published record set
and publishes an empty error, because `saveToStorage` catches its own
exception (source lines 78-80); the previous records and metadata are not
preserved and no failure message is carried, contrary to the claim's
persistence-failure leg. -/
theorem sync_persistence_failure_still_publishes :
    (sync exEnvSaveFail true exState none).1.records ≠ exState.records ∧
      (sync exEnvSaveFail true exState none).1.records = [{ id := 3, x_name := "Milk" }] ∧
      (sync exEnvSaveFail true exState none).1.error = "" ∧
      (sync exEnvSaveFail true exState none).1.meta ≠ exState.meta := by
  refine ⟨by decide, by decide, rfl, by decide⟩

/-- Claim C3 (amended): whenever the fetch that `sync` ends up using fails —
the forced or first (watermark-zero) full fetch, or the full-fetch fallback
after a failed incremental fetch — the published state has `syncing = false`,
carries the failure's message in `error`, and leaves the record set, the
metadata and the durable mirror untouched.  (A persistence-write failure, by
contrast, is swallowed inside `saveToStorage` and does not prevent
publication.) -/
theorem sync_fetch_failure_preserves_state (env : SyncEnv) (forceFullRefresh : Bool)
    (st : CacheState) (storage : Option StoredMirror) (e : String)
    (hfull : env.fullResult = Except.error e)
    (hmode : forceFullRefresh = true ∨ st.meta.lastRecordId = 0 ∨
      ∃ e1, env.incrResult = Except.error e1) :
    (sync env forceFullRefresh st storage).1.syncing = false ∧
      (sync env forceFullRefresh st storage).1.error = errMsg e ∧
      (sync env forceFullRefresh st storage).1.records = st.records ∧
      (sync env forceFullRefresh st storage).1.meta = st.meta ∧
      (sync env forceFullRefresh st storage).2 = storage := by
  have hres : sync env forceFullRefresh st storage =
      ({ st with syncing := false, error := errMsg e }, storage) := by
    rcases hmode with h | h | ⟨e1, h⟩
    · subst h; exact sync_full_err env st storage e hfull
    · cases forceFullRefresh
      · simp [sync, h, hfull]
      · exact sync_full_err env st storage e hfull
    · cases forceFullRefresh
      · by_cases hwm : st.meta.lastRecordId = 0
        · simp [sync, hwm, hfull]
        · simp [sync, h, hfull, hwm, Nat.pos_of_ne_zero hwm]
      · exact sync_full_err env st storage e hfull
  rw [hres]
  exact ⟨rfl, rfl, rfl, rfl, rfl⟩

/-- Witness for the amended C3: with both fetches failing, `sync(false)` from
a state with a positive watermark publishes the old records and metadata
unchanged, `syncing = false` and the full fetch's message. -/
theorem sync_fetch_failure_preserves_state_witness :
    (sync { incrResult := Except.error "e1", fullResult := Except.error "e2",
            saveOk := true, now := 700 } false exState none).1.syncing = false ∧
      (sync { incrResult := Except.error "e1", fullResult := Except.error "e2",
              saveOk := true, now := 700 } false exState none).1.error = errMsg "e2" ∧
      (sync { incrResult := Except.error "e1", fullResult := Except.error "e2",
              saveOk := true, now := 700 } false exState none).1.records = exState.records ∧
      (sync { incrResult := Except.error "e1", fullResult := Except.error "e2",
              saveOk := true, now := 700 } false exState none).1.meta = exState.meta ∧
      (sync { incrResult := Except.error "e1", fullResult := Except.error "e2",
              saveOk := true, now := 700 } false exState none).2 = none :=
  sync_fetch_failure_preserves_state _ false exState none "e2" rfl
    (Or.inr (Or.inr ⟨"e1", rfl⟩))

/-- Claim C4 counterexample: with the cached record `(1, Milk)` and a failing
remote update, `updateRecord` leaves the published record set unchanged: the
shallow-merged patch `(1, Oat)` is nowhere in the published set, so no
optimistic patch was applied before the remote call resolved nor survives its
failure (the error itself does propagate). -/
theorem updateRecord_failure_no_patch :
    updateRecord exEnvIdle (Except.error "network") 1 { x_name := some "Oat" } exStateMilk none =
        (Except.error "network", exStateMilk, none) ∧
      shallowMerge { id := 1, x_name := "Milk" } { x_name := some "Oat" } ∉
        (updateRecord exEnvIdle (Except.error "network") 1 { x_name := some "Oat" }
          exStateMilk none).2.1.records := by
  refine ⟨rfl, by decide⟩

/-- Claim C4 (amended): `updateRecord` shallow-merges `values` into the
matching cached record only after the remote update call resolves
successfully, and then runs the reconciling sync from the patched state; if
the remote update fails, the error propagates to the caller and the published
record set is unchanged — no optimistic patch is applied. -/
theorem updateRecord_spec (env : SyncEnv) (id : Nat) (values : UpdateValues)
    (st : CacheState) (storage : Option StoredMirror) :
    (∀ e, updateRecord env (Except.error e) id values st storage =
      (Except.error e, st, storage)) ∧
      (∀ b, updateRecord env (Except.ok b) id values st storage =
        (Except.ok true, sync env false (updateOptimistic id values st) storage)) ∧
      (updateOptimistic id values st).records =
        st.records.map (fun r => if r.id = id then shallowMerge r values else r) :=
  ⟨fun _ => rfl, fun _ => rfl, rfl⟩

/-- Claim C5: when the remote create call fails, the error propagates and the
published state is unchanged (no optimistic record is added); when it
succeeds, `createRecord` returns the remote-assigned identity and the state it
publishes — from which the reconciling sync then runs — is the previous set
with `{ id, ...fields }` appended. -/
theorem createRecord_spec (env : SyncEnv) (fields : CreateFields) (st : CacheState)
    (storage : Option StoredMirror) :
    (∀ e, createRecord env (Except.error e) fields st storage =
      (Except.error e, st, storage)) ∧
      ∀ id, (createRecord env (Except.ok id) fields st storage).1 = Except.ok id ∧
        (createOptimistic id fields st).records =
          st.records ++ [{ id := id, x_name := fields.x_name }] ∧
        (createRecord env (Except.ok id) fields st storage).2 =
          sync env false (createOptimistic id fields st) storage :=
  ⟨fun _ => rfl, fun _ => ⟨rfl, rfl, rfl⟩⟩

/-- Claim C6: `deleteRecord` is authoritative-first: on a failed remote delete
the error propagates, the published state is unchanged, and every previously
cached record — in particular the one with the targeted identity — is still
present; only on a successful remote delete is the matching record filtered
out of the published set. -/
theorem deleteRecord_spec (id : Nat) (st : CacheState) (storage : Option StoredMirror) :
    (∀ e, deleteRecord (Except.error e) id st storage = (Except.error e, st, storage)) ∧
      (∀ e r, r ∈ st.records →
        r ∈ (deleteRecord (Except.error e) id st storage).2.1.records) ∧
      ∀ b, (deleteRecord (Except.ok b) id st storage).2.1.records =
        st.records.filter (fun r => r.id != id) :=
  ⟨fun _ => rfl, fun _ _ h => h, fun _ => rfl⟩

/-- Witness for C6: after a failed remote delete of identity 1, the record
with identity 1 is still in the published set. -/
theorem deleteRecord_spec_witness :
    { id := 1, x_name := "a" } ∈ exState.records ∧
      ({ id := 1, x_name := "a" } : InventoryRecord) ∈
        (deleteRecord (Except.error "offline") 1 exState none).2.1.records :=
  ⟨by decide,
   (deleteRecord_spec 1 exState none).2.1 "offline" { id := 1, x_name := "a" } (by decide)⟩

/-- Claim C7: a second `sync(false)` whose incremental fetch returns no
records with identity beyond the watermark republishes the identical record
set with an unchanged `lastRecordId`; only `lastSyncTime` moves to the second
run's clock (merge is idempotent). -/
theorem sync_merge_idempotent (env1 env2 : SyncEnv) (st0 : CacheState)
    (s0 : Option StoredMirror) (l1 : List InventoryRecord)
    (h1 : env1.incrResult = Except.ok l1) (hwm0 : 0 < st0.meta.lastRecordId)
    (h2 : env2.incrResult = Except.ok [])
    (hwm1 : 0 < (sync env1 false st0 s0).1.meta.lastRecordId) :
    (sync env2 false (sync env1 false st0 s0).1 (sync env1 false st0 s0).2).1.records =
        (sync env1 false st0 s0).1.records ∧
      (sync env2 false (sync env1 false st0 s0).1
          (sync env1 false st0 s0).2).1.meta.lastRecordId =
        (sync env1 false st0 s0).1.meta.lastRecordId ∧
      (sync env2 false (sync env1 false st0 s0).1
          (sync env1 false st0 s0).2).1.meta.lastSyncTime = env2.now := by
  have hrun1 := sync_incr_ok env1 st0 s0 l1 h1 hwm0
  have hsorted : List.Sorted recIdLE (sync env1 false st0 s0).1.records := by
    rw [hrun1]; exact sortByIdAsc_sorted _
  rw [sync_incr_ok env2 (sync env1 false st0 s0).1 (sync env1 false st0 s0).2 [] h2 hwm1]
  refine ⟨?_, ?_, rfl⟩
  · show sortByIdAsc _ = _
    rw [List.filter_nil, List.append_nil, sortByIdAsc_of_sorted hsorted]
  · show lastIdOf (sortByIdAsc _) = _
    rw [List.filter_nil, List.append_nil, sortByIdAsc_of_sorted hsorted, hrun1]

/-- Witness for C7: after merging identities `{3, 7, 9}` into `{1, 2}`, a
second incremental sync returning no new records republishes `[1, 2, 3, 7, 9]`
with `lastRecordId` still 9 and only `lastSyncTime` updated. -/
theorem sync_merge_idempotent_witness :
    (sync exEnvEmpty false (sync exEnvMerge false exState none).1
        (sync exEnvMerge false exState none).2).1.records =
      (sync exEnvMerge false exState none).1.records ∧
      (sync exEnvEmpty false (sync exEnvMerge false exState none).1
          (sync exEnvMerge false exState none).2).1.meta.lastRecordId =
        (sync exEnvMerge false exState none).1.meta.lastRecordId ∧
      (sync exEnvEmpty false (sync exEnvMerge false exState none).1
          (sync exEnvMerge false exState none).2).1.meta.lastSyncTime = exEnvEmpty.now :=
  sync_merge_idempotent exEnvMerge exEnvEmpty exState none exFetched rfl (by decide) rfl
    (by decide)

/-- Claim C8: every record set published by a successful sync is strictly
ascending by numeric identity — in full mode provided the fetched identities
are distinct, and in incremental mode provided additionally the locally cached
identities are distinct (the spec's uniqueness invariant). -/
theorem sync_ordering_invariant (env : SyncEnv) (st : CacheState)
    (storage : Option StoredMirror) (fetched : List InventoryRecord) :
    (env.fullResult = Except.ok fetched → (fetched.map (fun r => r.id)).Nodup →
        List.Pairwise (fun a b => a.id < b.id) (sync env true st storage).1.records) ∧
      (env.incrResult = Except.ok fetched → 0 < st.meta.lastRecordId →
        (st.records.map (fun r => r.id)).Nodup → (fetched.map (fun r => r.id)).Nodup →
        List.Pairwise (fun a b => a.id < b.id) (sync env false st storage).1.records) := by
  constructor
  · intro hfull hnd
    rw [sync_full_ok env st storage fetched hfull]
    exact sortByIdAsc_strict hnd
  · intro hincr hwm hnd1 hnd2
    rw [sync_incr_ok env st storage fetched hincr hwm]
    exact sortByIdAsc_strict (mergedIdsNodup hnd1 hnd2)

/-- Witness for C8: both a forced full sync and an incremental merge from the
example state publish strictly ascending record sets. -/
theorem sync_ordering_invariant_witness :
    List.Pairwise (fun a b => a.id < b.id) (sync exEnvFallback true exState none).1.records ∧
      List.Pairwise (fun a b => a.id < b.id) (sync exEnvMerge false exState none).1.records :=
  ⟨(sync_ordering_invariant exEnvFallback exState none [{ id := 5, x_name := "z" }]).1 rfl
      (by decide),
   (sync_ordering_invariant exEnvMerge exState none exFetched).2 rfl (by decide) (by decide)
      (by decide)⟩

end FridgeInventory
